import Mathlib

/-!
Verification of the pyDirect WiFi provisioning subsystem against its design
specification.  The Python sources are shallowly embedded: bytes are modelled
as `Nat` values below 256, byte strings as `List Nat`, Python text strings as
the `List Nat` of their UTF-8 bytes (Python encode/decode is a bijection
between text and its UTF-8 bytes, so working at the byte level is faithful),
and the module-level mutable protocol state of `improv_serial.py` as an
explicit `EngineState` record threaded through the handlers.  Packet emission
via `sys.stdout` is modelled by returning the list of emitted packets.
-/

namespace PyDirect

/-- Packet type constants of improv_serial.py. -/
def TYPE_CURRENT_STATE : Nat := 0x01

/-- Packet type for error state packets. -/
def TYPE_ERROR_STATE : Nat := 0x02

/-- Packet type for RPC command packets. -/
def TYPE_RPC_COMMAND : Nat := 0x03

/-- Packet type for RPC result packets. -/
def TYPE_RPC_RESULT : Nat := 0x04

/-- RPC command id for submitting WiFi settings. -/
def RPC_SEND_WIFI_SETTINGS : Nat := 0x01

/-- RPC command id requesting the current state. -/
def RPC_REQUEST_CURRENT_STATE : Nat := 0x02

/-- RPC command id requesting device information. -/
def RPC_REQUEST_DEVICE_INFO : Nat := 0x03

/-- RPC command id requesting a network scan. -/
def RPC_REQUEST_SCAN_NETWORKS : Nat := 0x04

/-- Protocol state: authorization required. -/
def STATE_AUTHORIZATION_REQUIRED : Nat := 0x01

/-- Protocol state: authorized. -/
def STATE_AUTHORIZED : Nat := 0x02

/-- Protocol state: provisioning in progress. -/
def STATE_PROVISIONING : Nat := 0x03

/-- Protocol state: provisioned. -/
def STATE_PROVISIONED : Nat := 0x04

/-- Error code: no error. -/
def ERROR_NONE : Nat := 0x00

/-- Error code: invalid RPC packet. -/
def ERROR_INVALID_RPC : Nat := 0x01

/-- Error code: unknown RPC command. -/
def ERROR_UNKNOWN_COMMAND : Nat := 0x02

/-- Error code: unable to connect to WiFi. -/
def ERROR_UNABLE_TO_CONNECT : Nat := 0x03

/-- ASCII bytes of the magic header IMPROV used by send_packet/read_packet. -/
def IMPROV_HEADER : List Nat := [73, 77, 80, 82, 79, 86]

/-- Embedding of calculate_checksum (improv_serial.py line 47):
`sum(data) & 0xFF`, the additive sum of the bytes modulo 256. -/
def calculate_checksum (data : List Nat) : Nat :=
  data.sum % 256

/-- Embedding of send_packet (improv_serial.py line 52): builds the wire
frame header + version + type + length + data + checksum, where the checksum
is computed over version + type + length + data.  The write to stdout is
modelled by returning the frame bytes. -/
def send_packet (packet_type : Nat) (data : List Nat) : List Nat :=
  IMPROV_HEADER ++ ([1] ++ [packet_type] ++ [data.length] ++ data)
    ++ [calculate_checksum ([1] ++ [packet_type] ++ [data.length] ++ data)]

/-- Result of read_packet.  The source returns the pair on success and `None`
on both framing failures (bad magic header, short reads) and checksum
mismatches; the two `None` paths are distinguished in the source by the
diagnostic print on the checksum path (line 256), which the design document
names ChecksumError as opposed to FramingError. -/
inductive ReadResult where
  | ok : Nat → List Nat → ReadResult
  | framingError : ReadResult
  | checksumError : ReadResult
deriving DecidableEq, Repr

/-- Embedding of read_packet (improv_serial.py line 231) over a finite byte
stream: read 6 header bytes and compare with IMPROV, read the 3 meta bytes
(version, type, length), read `length` data bytes and one checksum byte
(if the stream is exhausted first, the source sees a short read and returns
`None`, a framing failure), and compare the checksum byte against
calculate_checksum(meta + data). -/
def read_packet (s : List Nat) : ReadResult :=
  if s.take 6 = IMPROV_HEADER then
    match s.drop 6 with
    | version :: ptype :: length :: rest =>
      if length + 1 ≤ rest.length then
        if rest.getD length 0 = calculate_checksum (version :: ptype :: length :: rest.take length) then
          ReadResult.ok ptype (rest.take length)
        else ReadResult.checksumError
      else ReadResult.framingError
    | _ => ReadResult.framingError
  else ReadResult.framingError

/-- Flip bit `k` of the byte at position `i` of a byte sequence. -/
def flip_bit (s : List Nat) (i k : Nat) : List Nat :=
  s.set i ((s.getD i 0) ^^^ (2 ^ k))

/-- Embedding of the payload-building loop of send_rpc_result
(improv_serial.py line 83): each string contributes one length byte followed
by its UTF-8 bytes.  Strings are modelled as their UTF-8 byte lists. -/
def encode_strings (strings : List (List Nat)) : List Nat :=
  match strings with
  | [] => []
  | s :: rest => (s.length :: s) ++ encode_strings rest

/-- Recursion worker for parse_strings.  Each loop iteration of the source
consumes at least one byte, so running the loop with the total byte count as
structural fuel (see parse_strings) is exact; the fuel-exhaustion arm is
unreachable there, and parse_strings_go_fuel_irrel proves the result does not
depend on the fuel once the fuel covers the data. -/
def parse_strings_go (fuel : Nat) (data : List Nat) : List (List Nat) :=
  match fuel, data with
  | _, [] => []
  | 0, _ :: _ => []
  | fuel + 1, length :: rest =>
    if length ≤ rest.length then
      rest.take length :: parse_strings_go fuel (rest.drop length)
    else []

/-- Embedding of parse_strings (improv_serial.py line 92): repeatedly read a
length byte; if the declared length exceeds the remaining bytes, stop (the
`break` in the source); otherwise take that many bytes as the next string and
continue after them. -/
def parse_strings (data : List Nat) : List (List Nat) :=
  parse_strings_go data.length data

/-- Octets of the fixed access-point address AP_IP = 192.168.4.1 of
CaptivePortal (wifi_onboarding.py line 17), as split and converted by
_build_dns_response lines 123 to 124. -/
def AP_IP_BYTES : List Nat := [192, 168, 4, 1]

/-- Embedding of CaptivePortal._build_dns_response (wifi_onboarding.py
line 105): transaction id copied from the query, fixed response flags
0x81 0x80, question count copied from query bytes 4 to 5, answer count 1,
authority and additional counts 0, the original question section copied
verbatim from byte 12 on, then one answer record: compression pointer
0xc0 0x0c to the question name, type A, class IN, TTL 60, RDATA length 4 and
the four AP address octets. -/
def build_dns_response (query : List Nat) : List Nat :=
  (query.take 2) ++ [0x81, 0x80] ++ ((query.drop 4).take 2) ++ [0x00, 0x01]
    ++ [0x00, 0x00, 0x00, 0x00] ++ (query.drop 12)
    ++ ([0xc0, 0x0c] ++ [0x00, 0x01] ++ [0x00, 0x01] ++ [0x00, 0x00, 0x00, 0x3c]
        ++ [0x00, 0x04] ++ AP_IP_BYTES)

/-- An emitted Improv packet, as the (type, payload) pair handed to
send_packet; the wire bytes are send_packet applied to the pair. -/
abbrev Packet := Nat × List Nat

/-- External collaborators of improv_serial.py, fixed per run: the WiFi
radio (`isconnected i` is what wlan.isconnected() returns at the i-th poll
of the connect wait loop, `ip` the UTF-8 bytes of wlan.ifconfig()[0]), the
device information assembled by get_device_info, and the scan results of
scan_wifi_networks as lists of string triples. -/
structure Env where
  isconnected : Nat → Bool
  ip : List Nat
  device_info : List (List Nat)
  scan_results : List (List (List Nat))

/-- The module-level mutable state of improv_serial.py: `current_state` and
`current_error` (lines 43 to 44), together with the durable credential file
/wifi_config.txt modelled as `none` (absent) or `some content`. -/
structure EngineState where
  current_state : Nat
  current_error : Nat
  wifi_config : Option (List Nat)
deriving DecidableEq, Repr

/-- Embedding of send_state (improv_serial.py line 69): updates
current_state and emits a CURRENT_STATE packet carrying the state byte. -/
def send_state (state : Nat) (st : EngineState) : EngineState × List Packet :=
  ({ st with current_state := state }, [(TYPE_CURRENT_STATE, [state])])

/-- Embedding of send_error (improv_serial.py line 76): updates
current_error and emits an ERROR_STATE packet carrying the error byte. -/
def send_error (error_code : Nat) (st : EngineState) : EngineState × List Packet :=
  ({ st with current_error := error_code }, [(TYPE_ERROR_STATE, [error_code])])

/-- Embedding of send_rpc_result (improv_serial.py line 83): emits one
RPC_RESULT packet whose payload is the length-prefixed string encoding. -/
def send_rpc_result (strings : List (List Nat)) (st : EngineState) :
    EngineState × List Packet :=
  (st, [(TYPE_RPC_RESULT, encode_strings strings)])

/-- ASCII bytes of "http://", the prefix of the redirect URL built at
improv_serial.py line 171. -/
def HTTP_URL_PREFIX : List Nat := [104, 116, 116, 112, 58, 47, 47]

/-- The bounded connect wait of improv_serial.py lines 165 to 182: up to
`fuel` polls of wlan.isconnected(), true as soon as one poll succeeds.  The
source runs exactly 20 polls at 0.5 second intervals. -/
def wait_for_connection (isconnected : Nat → Bool) : Nat → Nat → Bool
  | 0, _ => false
  | fuel + 1, i => if isconnected i then true else wait_for_connection isconnected fuel (i + 1)

/-- Embedding of connect_wifi (improv_serial.py line 152).  Emits
CURRENT_STATE(PROVISIONING), then polls the connection up to 20 times.  On
success: emits CURRENT_STATE(PROVISIONED), emits one RPC_RESULT carrying
the redirect URL http:// + ip + /, writes ssid, newline, password, newline
to /wifi_config.txt (the non-exceptional path of the try block at lines 175
to 179) and returns true.  Otherwise: emits ERROR_STATE(UNABLE_TO_CONNECT)
then CURRENT_STATE(AUTHORIZED) and returns false.  The success actions do
not depend on which poll succeeded, so branching on the overall wait result
is equivalent to the source loop. -/
def connect_wifi (env : Env) (ssid password : List Nat) (st : EngineState) :
    EngineState × List Packet × Bool :=
  let (st1, p1) := send_state STATE_PROVISIONING st
  if wait_for_connection env.isconnected 20 0 then
    let (st2, p2) := send_state STATE_PROVISIONED st1
    let redirect_url := HTTP_URL_PREFIX ++ env.ip ++ [47]
    let (st3, p3) := send_rpc_result [redirect_url] st2
    let st4 := { st3 with wifi_config := some (ssid ++ [10] ++ password ++ [10]) }
    (st4, p1 ++ p2 ++ p3, true)
  else
    let (st2, p2) := send_error ERROR_UNABLE_TO_CONNECT st1
    let (st3, p3) := send_state STATE_AUTHORIZED st2
    (st3, p1 ++ p2 ++ p3, false)

/-- Embedding of handle_rpc_command (improv_serial.py line 196): first emits
ERROR_STATE(NONE), then dispatches on the command id.  SEND_WIFI_SETTINGS
parses the payload strings and connects when at least two are present,
otherwise emits ERROR_STATE(INVALID_RPC); REQUEST_CURRENT_STATE re-emits the
current state; REQUEST_DEVICE_INFO emits one RPC_RESULT with the device
information; REQUEST_SCAN_NETWORKS emits one RPC_RESULT per network followed
by an empty RPC_RESULT sentinel; unknown ids emit
ERROR_STATE(UNKNOWN_COMMAND).  Returns the final state, the emitted packets
in order, and the provisioned flag returned by the source. -/
def handle_rpc_command (env : Env) (command_id : Nat) (data : List Nat)
    (st : EngineState) : EngineState × List Packet × Bool :=
  let (st0, p0) := send_error ERROR_NONE st
  if command_id = RPC_SEND_WIFI_SETTINGS then
    match parse_strings data with
    | ssid :: password :: _ =>
      let (st1, p1, r) := connect_wifi env ssid password st0
      (st1, p0 ++ p1, r)
    | _ =>
      let (st1, p1) := send_error ERROR_INVALID_RPC st0
      (st1, p0 ++ p1, false)
  else if command_id = RPC_REQUEST_CURRENT_STATE then
    let (st1, p1) := send_state st0.current_state st0
    (st1, p0 ++ p1, false)
  else if command_id = RPC_REQUEST_DEVICE_INFO then
    let (st1, p1) := send_rpc_result env.device_info st0
    (st1, p0 ++ p1, false)
  else if command_id = RPC_REQUEST_SCAN_NETWORKS then
    let p1 := env.scan_results.map (fun ni => (TYPE_RPC_RESULT, encode_strings ni))
    (st0, p0 ++ p1 ++ [(TYPE_RPC_RESULT, encode_strings [])], false)
  else
    let (st1, p1) := send_error ERROR_UNKNOWN_COMMAND st0
    (st1, p0 ++ p1, false)

/-- Split a byte sequence at newline bytes.  Composed with py_strip this
models Python readlines: readlines keeps each trailing newline inside its
line and the only consumer, load_wifi_config, strips it away, so dropping
the separators here is behaviorally identical. -/
def split_nl : List Nat → List (List Nat)
  | [] => [[]]
  | b :: rest =>
    if b = 10 then [] :: split_nl rest
    else
      match split_nl rest with
      | l :: ls => (b :: l) :: ls
      | [] => [[b]]

/-- Python readlines on a file content: the chunks between newlines, without
a final empty chunk when the content ends in a newline, and no chunks at all
for empty content. -/
def py_readlines (content : List Nat) : List (List Nat) :=
  let parts := split_nl content
  if parts.getLast? = some ([] : List Nat) then parts.dropLast else parts

/-- ASCII whitespace recognised by Python str.strip (the credential strings
are text, so the ASCII whitespace set is the relevant one). -/
def is_py_space (b : Nat) : Bool :=
  b = 9 || b = 10 || b = 11 || b = 12 || b = 13 || b = 32

/-- Python str.strip: remove leading and trailing whitespace. -/
def py_strip (s : List Nat) : List Nat :=
  ((s.dropWhile is_py_space).reverse.dropWhile is_py_space).reverse

/-- Embedding of load_wifi_config (device-scripts/main.py line 67): read
/wifi_config.txt, and when it has at least two lines return the first two,
stripped; otherwise (missing file or fewer lines) report absence. -/
def load_wifi_config (file : Option (List Nat)) : Option (List Nat × List Nat) :=
  match file with
  | none => none
  | some content =>
    match py_readlines content with
    | l0 :: l1 :: _ => some (py_strip l0, py_strip l1)
    | _ => none

/-- Embedding of is_wifi_configured (improv_serial.py line 312): true
exactly when /wifi_config.txt exists. -/
def is_wifi_configured (file : Option (List Nat)) : Bool :=
  file.isSome

/-- Environment whose WiFi connect succeeds at the first poll, with device
IP 10.0.0.5 (ASCII bytes). -/
def env_up : Env :=
  { isconnected := fun _ => true, ip := [49, 48, 46, 48, 46, 48, 46, 53],
    device_info := [], scan_results := [] }

/-- Environment whose WiFi connect never succeeds. -/
def env_down : Env :=
  { isconnected := fun _ => false, ip := [], device_info := [], scan_results := [] }

/-- The initial engine state of improv_serial.py lines 43 to 44 with no
stored credential file. -/
def st_auth : EngineState :=
  { current_state := STATE_AUTHORIZED, current_error := ERROR_NONE, wifi_config := none }

/-- The parsed JSON body of POST /api/configure as read by handle_configure
(ESP32_S3_N8R2 main.py lines 127 to 130): `ssid` is data.get with no
default (absent key modelled as none), `password` is data.get with default
empty string. -/
structure ConfigureRequest where
  ssid : Option (List Nat)
  password : List Nat
deriving DecidableEq

/-- State of the WiFiManager collaborator: the NVS-backed credential record
written by save_credentials, and a counter of connect attempts triggered on
the WLAN interface (WiFiManager.connect or wlan.connect): every embedded
operation that starts a connect attempt increments it. -/
structure WifiMgrState where
  creds : Option (List Nat × List Nat)
  connect_calls : Nat
deriving DecidableEq

/-- Embedding of WiFiManager.save_credentials (wifi_manager.py line 42):
stores the pair in the single NVS record and reports success (the
non-exceptional NVS path); no connect attempt is made. -/
def save_credentials (ssid password : List Nat) (wm : WifiMgrState) :
    WifiMgrState × Bool :=
  ({ wm with creds := some (ssid, password) }, true)

/-- The HTTP handler response as built by handle_configure: status code and
the fields of the JSON body {success, error?}. -/
structure HttpResponse where
  status : Nat
  success : Bool
  error_msg : Option (List Nat)
deriving DecidableEq

/-- ASCII bytes of the error text SSID required. -/
def SSID_REQUIRED_MSG : List Nat :=
  [83, 83, 73, 68, 32, 114, 101, 113, 117, 105, 114, 101, 100]

/-- Embedding of handle_configure (ESP32_S3_N8R2 main.py lines 123 to 152):
reject an absent or empty ssid with status 400, otherwise call
wifi_mgr.save_credentials and answer status 200 with success true.  The
body of the source handler contains no call into any connect primitive,
which the unchanged connect_calls counter makes observable. -/
def handle_configure (req : ConfigureRequest) (wm : WifiMgrState) :
    HttpResponse × WifiMgrState :=
  match req.ssid with
  | none => ({ status := 400, success := false, error_msg := some SSID_REQUIRED_MSG }, wm)
  | some ssid =>
    if ssid = [] then
      ({ status := 400, success := false, error_msg := some SSID_REQUIRED_MSG }, wm)
    else
      let (wm1, _saved) := save_credentials ssid req.password wm
      ({ status := 200, success := true, error_msg := none }, wm1)

end PyDirect

namespace PyDirect

/-- Normal form of the frame built by send_packet. -/
theorem send_packet_eq (t : Nat) (d : List Nat) :
    send_packet t d =
      73 :: 77 :: 80 :: 82 :: 79 :: 86 :: 1 :: t :: d.length ::
        (d ++ [(1 + (t + (d.length + d.sum))) % 256]) := by
  simp [send_packet, IMPROV_HEADER, calculate_checksum]

/-- Claim C1: for every packet type byte and every payload of at most 255
bytes, read_packet applied to the frame emitted by send_packet yields
exactly the same (type, payload). -/
theorem read_packet_send_packet_round_trip (t : Nat) (d : List Nat)
    (_ht : t ≤ 255) (_hd : d.length ≤ 255) (_hb : ∀ b ∈ d, b ≤ 255) :
    read_packet (send_packet t d) = ReadResult.ok t d := by
  rw [send_packet_eq, read_packet]
  simp only [List.take_succ_cons, List.take_zero, List.drop_succ_cons, List.drop_zero]
  rw [if_pos (show [73, 77, 80, 82, 79, 86] = IMPROV_HEADER from rfl)]
  simp only [List.length_append, List.length_cons, List.length_nil]
  rw [if_pos (by omega)]
  rw [List.getD_append_right _ _ _ _ (Nat.le_refl _), Nat.sub_self]
  rw [List.take_left]
  simp [calculate_checksum]

/-- Witness for C1 at a concrete type and payload. -/
theorem read_packet_send_packet_round_trip_witness :
    read_packet (send_packet 3 [1, 72, 105]) = ReadResult.ok 3 [1, 72, 105] :=
  read_packet_send_packet_round_trip 3 [1, 72, 105] (by decide) (by decide) (by decide)

/-- Claim C2: the encoder produces exactly IMPROV (ASCII 73 77 80 82 79 86)
followed by version 0x01, the type byte, the payload length, the payload, and
a checksum equal to the sum of version, type, length and payload bytes
modulo 256. -/
theorem send_packet_layout (t : Nat) (d : List Nat)
    (_ht : t ≤ 255) (_hd : d.length ≤ 255) :
    send_packet t d =
      [73, 77, 80, 82, 79, 86] ++ ((1 :: t :: d.length :: d)
        ++ [(1 + t + d.length + d.sum) % 256]) := by
  rw [send_packet_eq]
  simp [Nat.add_assoc]

/-- Witness for C2 at a concrete type and payload. -/
theorem send_packet_layout_witness :
    send_packet 2 [3] =
      [73, 77, 80, 82, 79, 86] ++ ((1 :: 2 :: [3].length :: [3])
        ++ [(1 + 2 + [3].length + [3].sum) % 256]) :=
  send_packet_layout 2 [3] (by decide) (by decide)

/-- On the empty payload the parse_strings loop yields the empty list at any
fuel. -/
theorem parse_strings_go_nil (fuel : Nat) : parse_strings_go fuel [] = [] := by
  cases fuel <;> rfl

/-- The parse_strings loop result does not depend on the fuel once the fuel
covers the data. -/
theorem parse_strings_go_fuel_irrel :
    ∀ (fuel fuel' : Nat) (data : List Nat), data.length ≤ fuel →
      data.length ≤ fuel' → parse_strings_go fuel data = parse_strings_go fuel' data := by
  intro fuel
  induction fuel with
  | zero =>
    intro fuel' data h _
    cases data with
    | nil => rw [parse_strings_go_nil, parse_strings_go_nil]
    | cons x xs => simp at h
  | succ n ih =>
    intro fuel' data h h'
    cases data with
    | nil => rw [parse_strings_go_nil, parse_strings_go_nil]
    | cons x xs =>
      cases fuel' with
      | zero => simp at h'
      | succ m =>
        simp only [parse_strings_go]
        by_cases hx : x ≤ xs.length
        · rw [if_pos hx, if_pos hx]
          have hlen : (xs.drop x).length ≤ n := by
            simp only [List.length_drop]
            simp only [List.length_cons] at h
            omega
          have hlen' : (xs.drop x).length ≤ m := by
            simp only [List.length_drop]
            simp only [List.length_cons] at h'
            omega
          rw [ih m (xs.drop x) hlen hlen']
        · rw [if_neg hx, if_neg hx]

/-- One-step unfolding of parse_strings on a nonempty payload. -/
theorem parse_strings_cons (length : Nat) (rest : List Nat) :
    parse_strings (length :: rest) =
      if length ≤ rest.length then
        rest.take length :: parse_strings (rest.drop length)
      else [] := by
  show parse_strings_go (rest.length + 1) (length :: rest) = _
  rw [parse_strings_go]
  by_cases hx : length ≤ rest.length
  · rw [if_pos hx, if_pos hx]
    rw [parse_strings_go_fuel_irrel rest.length (rest.drop length).length (rest.drop length)
      (by simp [List.length_drop]) (Nat.le_refl _)]
    rfl
  · rw [if_neg hx, if_neg hx]

/-- Claim C10: parse_strings inverts the length-prefixed encoding built by
send_rpc_result, for every list of strings whose UTF-8 encodings each fit in
255 bytes, including empty strings. -/
theorem parse_strings_encode_strings (ss : List (List Nat))
    (_h : ∀ s ∈ ss, s.length ≤ 255) :
    parse_strings (encode_strings ss) = ss := by
  induction ss with
  | nil => rfl
  | cons s rest ih =>
    rw [encode_strings, List.cons_append, parse_strings_cons,
      if_pos (by simp), List.take_left, List.drop_left]
    rw [ih (fun x hx => _h x (List.mem_cons_of_mem _ hx))]

/-- Witness for C10 at a concrete string list with an empty string. -/
theorem parse_strings_encode_strings_witness :
    parse_strings (encode_strings [[72, 105], [], [33]]) = [[72, 105], [], [33]] :=
  parse_strings_encode_strings [[72, 105], [], [33]] (by decide)

/-- Claim C7: when a payload consists of valid length-prefixed records
followed by a record whose declared length exceeds the remaining bytes,
parse_strings returns exactly the strings of the valid records (the loop
breaks at the malformed record instead of failing the whole packet). -/
theorem parse_strings_truncates_at_bad_length (ss : List (List Nat))
    (bad : Nat) (rest : List Nat) (_h : ∀ s ∈ ss, s.length ≤ 255)
    (hbad : rest.length < bad) :
    parse_strings (encode_strings ss ++ bad :: rest) = ss := by
  induction ss with
  | nil =>
    rw [encode_strings, List.nil_append, parse_strings_cons, if_neg (by omega)]
  | cons s tail ih =>
    rw [encode_strings, List.append_assoc, List.cons_append,
      parse_strings_cons, if_pos (by simp), List.take_left, List.drop_left]
    rw [ih (fun x hx => _h x (List.mem_cons_of_mem _ hx))]

/-- Witness for C7: two valid records followed by a record declaring 9 bytes
with only 1 remaining. -/
theorem parse_strings_truncates_at_bad_length_witness :
    parse_strings (encode_strings [[72, 105], [33]] ++ 9 :: [7]) = [[72, 105], [33]] :=
  parse_strings_truncates_at_bad_length [[72, 105], [33]] 9 [7] (by decide) (by decide)

/-- Claim C3: for every DNS query of at least 12 bytes, the response starts
with the transaction id of the query, carries the fixed flags 0x81 0x80
(standard response, no error), answer count 1, authority and additional
counts 0, copies the question section verbatim at offset 12, and ends with
one answer record made of the compression pointer 0xc0 0x0c, type A,
class IN, TTL 60 and a 4-byte RDATA holding the access-point address
octets, regardless of the queried name. -/
theorem build_dns_response_spec (q : List Nat) (hq : 12 ≤ q.length) :
    (build_dns_response q).take 2 = q.take 2 ∧
    ((build_dns_response q).drop 2).take 2 = [0x81, 0x80] ∧
    ((build_dns_response q).drop 6).take 2 = [0x00, 0x01] ∧
    ((build_dns_response q).drop 8).take 4 = [0x00, 0x00, 0x00, 0x00] ∧
    ((build_dns_response q).drop 12).take (q.length - 12) = q.drop 12 ∧
    (build_dns_response q).drop q.length =
      [0xc0, 0x0c, 0x00, 0x01, 0x00, 0x01, 0x00, 0x00, 0x00, 0x3c, 0x00, 0x04]
        ++ AP_IP_BYTES := by
  have l1 : (q.take 2).length = 2 := by rw [List.length_take]; omega
  have l2 : ((q.drop 4).take 2).length = 2 := by
    rw [List.length_take, List.length_drop]; omega
  have l3 : (q.drop 12).length = q.length - 12 := by rw [List.length_drop]
  have hr2 : build_dns_response q =
      (q.take 2) ++ ([0x81, 0x80] ++ ((q.drop 4).take 2 ++ ([0x00, 0x01]
        ++ ([0x00, 0x00, 0x00, 0x00] ++ (q.drop 12
          ++ ([0xc0, 0x0c, 0x00, 0x01, 0x00, 0x01, 0x00, 0x00, 0x00, 0x3c, 0x00, 0x04]
            ++ AP_IP_BYTES)))))) := by
    simp only [build_dns_response, List.append_assoc, List.cons_append, List.nil_append]
  have hr6 : build_dns_response q =
      (q.take 2 ++ ([0x81, 0x80] ++ (q.drop 4).take 2)) ++ ([0x00, 0x01]
        ++ ([0x00, 0x00, 0x00, 0x00] ++ (q.drop 12
          ++ ([0xc0, 0x0c, 0x00, 0x01, 0x00, 0x01, 0x00, 0x00, 0x00, 0x3c, 0x00, 0x04]
            ++ AP_IP_BYTES)))) := by
    simp only [build_dns_response, List.append_assoc, List.cons_append, List.nil_append]
  have hr8 : build_dns_response q =
      (q.take 2 ++ ([0x81, 0x80] ++ ((q.drop 4).take 2 ++ [0x00, 0x01])))
        ++ ([0x00, 0x00, 0x00, 0x00] ++ (q.drop 12
          ++ ([0xc0, 0x0c, 0x00, 0x01, 0x00, 0x01, 0x00, 0x00, 0x00, 0x3c, 0x00, 0x04]
            ++ AP_IP_BYTES))) := by
    simp only [build_dns_response, List.append_assoc, List.cons_append, List.nil_append]
  have hr12 : build_dns_response q =
      (q.take 2 ++ ([0x81, 0x80] ++ ((q.drop 4).take 2
        ++ ([0x00, 0x01] ++ [0x00, 0x00, 0x00, 0x00]))))
        ++ (q.drop 12
          ++ ([0xc0, 0x0c, 0x00, 0x01, 0x00, 0x01, 0x00, 0x00, 0x00, 0x3c, 0x00, 0x04]
            ++ AP_IP_BYTES)) := by
    simp only [build_dns_response, List.append_assoc, List.cons_append, List.nil_append]
  have hrq : build_dns_response q =
      ((q.take 2 ++ ([0x81, 0x80] ++ ((q.drop 4).take 2
        ++ ([0x00, 0x01] ++ [0x00, 0x00, 0x00, 0x00])))) ++ q.drop 12)
        ++ ([0xc0, 0x0c, 0x00, 0x01, 0x00, 0x01, 0x00, 0x00, 0x00, 0x3c, 0x00, 0x04]
          ++ AP_IP_BYTES) := by
    simp only [build_dns_response, List.append_assoc, List.cons_append, List.nil_append]
  refine ⟨?_, ?_, ?_, ?_, ?_, ?_⟩
  · rw [hr2]
    exact List.take_left' l1
  · rw [hr2, List.drop_left' l1]
    rfl
  · rw [hr6, List.drop_left' (n := 6) (by
      simp only [List.length_append, List.length_cons, List.length_nil, l1, l2])]
    rfl
  · rw [hr8, List.drop_left' (n := 8) (by
      simp only [List.length_append, List.length_cons, List.length_nil, l1, l2])]
    rfl
  · rw [hr12, List.drop_left' (n := 12) (by
      simp only [List.length_append, List.length_cons, List.length_nil, l1, l2])]
    exact List.take_left' l3
  · rw [hrq, List.drop_left' (n := q.length) (by
      simp only [List.length_append, List.length_cons, List.length_nil, l1, l2, l3]
      omega)]

/-- The frame of send_packet split as a 9-byte prefix and the payload plus
checksum. -/
theorem send_packet_split (t : Nat) (d : List Nat) :
    send_packet t d =
      [73, 77, 80, 82, 79, 86, 1, t, d.length]
        ++ (d ++ [(1 + (t + (d.length + d.sum))) % 256]) := by
  rw [send_packet_eq]
  rfl

/-- Decoding a well-framed stream reduces to the checksum comparison. -/
theorem read_packet_frame (v t : Nat) (d : List Nat) (cs : Nat) :
    read_packet (73 :: 77 :: 80 :: 82 :: 79 :: 86 :: v :: t :: d.length :: (d ++ [cs])) =
      if cs = calculate_checksum (v :: t :: d.length :: d) then ReadResult.ok t d
      else ReadResult.checksumError := by
  rw [read_packet]
  rw [if_pos (show List.take 6 (73 :: 77 :: 80 :: 82 :: 79 :: 86 :: v :: t :: d.length
    :: (d ++ [cs])) = IMPROV_HEADER from rfl)]
  simp only [List.drop_succ_cons, List.drop_zero]
  rw [if_pos (by simp)]
  rw [List.getD_append_right _ _ _ _ (Nat.le_refl _), Nat.sub_self, List.take_left]
  rfl

/-- Two sums that differ in a single byte below 256 differ modulo 256. -/
theorem byte_mod_ne (b b' q : Nat) (hb : b < 256) (hb' : b' < 256) (hne : b' ≠ b) :
    (b' + q) % 256 ≠ (b + q) % 256 := by
  intro h
  apply hne
  have h1 : b' ≡ b [MOD 256] := Nat.ModEq.add_right_cancel rfl h
  rwa [Nat.ModEq, Nat.mod_eq_of_lt hb', Nat.mod_eq_of_lt hb] at h1

/-- Flipping a bit changes the byte. -/
theorem xor_two_pow_ne (b k : Nat) : b ^^^ 2 ^ k ≠ b := by
  intro h
  have h2 : b ^^^ 2 ^ k ^^^ b = b ^^^ b := congrArg (fun z => z ^^^ b) h
  rw [Nat.xor_comm b (2 ^ k), Nat.xor_assoc, Nat.xor_self, Nat.xor_zero] at h2
  exact absurd h2 (Nat.two_pow_pos k).ne'

/-- Flipping one of the low eight bits keeps a byte below 256. -/
theorem xor_two_pow_lt (b k : Nat) (hb : b < 256) (hk : k < 8) : b ^^^ 2 ^ k < 256 := by
  have h1 : 2 ^ k < 2 ^ 8 := by
    calc 2 ^ k ≤ 2 ^ 7 := Nat.pow_le_pow_right (by omega) (by omega)
    _ < 256 := by omega
  exact Nat.xor_lt_two_pow (by omega) h1

/-- Replacing one list entry trades the old byte for the new one in the sum. -/
theorem sum_set_getD (d : List Nat) (j x : Nat) (h : j < d.length) :
    (d.set j x).sum + d.getD j 0 = d.sum + x := by
  induction d generalizing j with
  | nil => simp at h
  | cons b tail ih =>
    cases j with
    | zero => simp [List.set]; omega
    | succ j' =>
      have hj : j' < tail.length := by
        simp only [List.length_cons] at h
        omega
      have hih := ih j' hj
      simp only [List.set, List.sum_cons, List.getD_cons_succ]
      omega

/-- Claim C8 as amended: for a frame encoded by send_packet, flipping any
single bit of the version byte (position 6), the type byte (position 7) or
a payload byte (positions 9 and further) yields checksumError on decode.
Flips in the magic header yield framingError instead (see the
counterexample), and flips in the length byte misframe the stream, so
neither is guaranteed to surface as a checksum failure. -/
theorem read_packet_flip_checksum_sensitive (t : Nat) (d : List Nat) (i k : Nat)
    (_ht : t ≤ 255) (hb : ∀ b ∈ d, b ≤ 255) (_hd : d.length ≤ 255) (hk : k < 8)
    (hi : i = 6 ∨ i = 7 ∨ (9 ≤ i ∧ i < 9 + d.length)) :
    read_packet (flip_bit (send_packet t d) i k) = ReadResult.checksumError := by
  rcases hi with hi | hi | ⟨hi9, hilt⟩
  · subst hi
    have hF : flip_bit (send_packet t d) 6 k =
        73 :: 77 :: 80 :: 82 :: 79 :: 86 :: (1 ^^^ 2 ^ k) :: t :: d.length ::
          (d ++ [(1 + (t + (d.length + d.sum))) % 256]) := by
      rw [send_packet_eq]
      rfl
    rw [hF, read_packet_frame]
    rw [if_neg (by
      simp only [calculate_checksum, List.sum_cons]
      exact byte_mod_ne (1 ^^^ 2 ^ k) 1 (t + (d.length + d.sum))
        (xor_two_pow_lt 1 k (by omega) hk) (by omega)
        (Ne.symm (xor_two_pow_ne 1 k)))]
  · subst hi
    have hF : flip_bit (send_packet t d) 7 k =
        73 :: 77 :: 80 :: 82 :: 79 :: 86 :: 1 :: (t ^^^ 2 ^ k) :: d.length ::
          (d ++ [(1 + (t + (d.length + d.sum))) % 256]) := by
      rw [send_packet_eq]
      rfl
    rw [hF, read_packet_frame]
    rw [if_neg (by
      simp only [calculate_checksum, List.sum_cons]
      intro h
      have h1 : t + (d.length + d.sum) ≡ (t ^^^ 2 ^ k) + (d.length + d.sum) [MOD 256] :=
        Nat.ModEq.add_left_cancel rfl h
      exact byte_mod_ne (t ^^^ 2 ^ k) t (d.length + d.sum)
        (xor_two_pow_lt t k (by omega) hk) (by omega)
        (Ne.symm (xor_two_pow_ne t k)) h1)]
  · obtain ⟨j, rfl⟩ : ∃ j, i = 9 + j := ⟨i - 9, by omega⟩
    have hjd : j < d.length := by omega
    have hF : flip_bit (send_packet t d) (9 + j) k =
        73 :: 77 :: 80 :: 82 :: 79 :: 86 :: 1 :: t :: d.length ::
          ((d.set j (d.getD j 0 ^^^ 2 ^ k))
            ++ [(1 + (t + (d.length + d.sum))) % 256]) := by
      rw [send_packet_split, flip_bit]
      rw [List.getD_append_right _ _ _ _ (by simp)]
      have h99 : 9 + j - ([73, 77, 80, 82, 79, 86, 1, t, d.length] : List Nat).length = j := by
        simp
      rw [h99, List.getD_append _ _ _ _ hjd]
      rw [List.set_append_right _ _ (by simp)]
      rw [h99, List.set_append_left _ _ hjd]
      rfl
    rw [hF]
    have hlen : d.length = (d.set j (d.getD j 0 ^^^ 2 ^ k)).length :=
      (List.length_set d j _).symm
    rw [show (73 :: 77 :: 80 :: 82 :: 79 :: 86 :: 1 :: t :: d.length ::
        ((d.set j (d.getD j 0 ^^^ 2 ^ k)) ++ [(1 + (t + (d.length + d.sum))) % 256])) =
      (73 :: 77 :: 80 :: 82 :: 79 :: 86 :: 1 :: t ::
        (d.set j (d.getD j 0 ^^^ 2 ^ k)).length ::
        ((d.set j (d.getD j 0 ^^^ 2 ^ k)) ++ [(1 + (t + (d.length + d.sum))) % 256]))
      from by rw [← hlen]]
    rw [read_packet_frame]
    rw [if_neg (by
      simp only [calculate_checksum, List.sum_cons, List.length_set]
      intro h
      have h1 := Nat.ModEq.add_left_cancel rfl h
      have h2 := Nat.ModEq.add_left_cancel rfl h1
      have h3 := Nat.ModEq.add_left_cancel rfl h2
      have h4 := h3.add_right (d.getD j 0)
      rw [sum_set_getD d j _ hjd] at h4
      have h6 := Nat.ModEq.add_left_cancel rfl h4
      have hblt : d.getD j 0 < 256 := by
        have hmem : d.getD j 0 ∈ d := by
          rw [List.getD_eq_getElem d 0 hjd]
          exact List.getElem_mem hjd
        have := hb _ hmem
        omega
      have hb'lt : d.getD j 0 ^^^ 2 ^ k < 256 := xor_two_pow_lt _ k hblt hk
      have heq : d.getD j 0 = d.getD j 0 ^^^ 2 ^ k := by
        rwa [Nat.ModEq, Nat.mod_eq_of_lt hblt, Nat.mod_eq_of_lt hb'lt] at h6
      exact xor_two_pow_ne (d.getD j 0) k heq.symm)]

/-- Witness for the amended C8: flipping bit 0 of the payload byte of the
frame for type 1 with payload [5] is detected as a checksum failure. -/
theorem read_packet_flip_checksum_sensitive_witness :
    read_packet (flip_bit (send_packet 1 [5]) 9 0) = ReadResult.checksumError :=
  read_packet_flip_checksum_sensitive 1 [5] 9 0 (by decide) (by decide) (by decide)
    (by decide) (by decide)

/-- Counterexample to C8 as stated: bit 0 of byte 0 lies in the magic
header, outside the checksum byte (the frame for type 1 with empty payload
has its checksum at position 9), yet decoding the flipped frame yields
framingError, not checksumError. -/
theorem read_packet_flip_header_counterexample :
    read_packet (flip_bit (send_packet 1 []) 0 0) = ReadResult.framingError ∧
    read_packet (flip_bit (send_packet 1 []) 0 0) ≠ ReadResult.checksumError := by
  refine ⟨by decide, by decide⟩

/-- A byte sequence with no newline splits into itself alone. -/
theorem split_nl_no_nl (s : List Nat) (h : 10 ∉ s) : split_nl s = [s] := by
  induction s with
  | nil => rfl
  | cons b rest ih =>
    have hb : b ≠ 10 := fun hb => h (hb ▸ List.mem_cons_self b rest)
    have hrest : 10 ∉ rest := fun hm => h (List.mem_cons_of_mem b hm)
    rw [split_nl, if_neg hb, ih hrest]

/-- Splitting past a newline-free prefix peels it off as the first chunk. -/
theorem split_nl_append (s r : List Nat) (h : 10 ∉ s) :
    split_nl (s ++ 10 :: r) = s :: split_nl r := by
  induction s with
  | nil => rw [List.nil_append, split_nl, if_pos rfl]
  | cons b rest ih =>
    have hb : b ≠ 10 := fun hb => h (hb ▸ List.mem_cons_self b rest)
    have hrest : 10 ∉ rest := fun hm => h (List.mem_cons_of_mem b hm)
    rw [List.cons_append, split_nl, if_neg hb, ih hrest]

/-- Loading the file written by connect_wifi returns the stripped first two
lines. -/
theorem load_wifi_config_write (ssid password : List Nat)
    (h1 : 10 ∉ ssid) (h2 : 10 ∉ password) :
    load_wifi_config (some (ssid ++ [10] ++ password ++ [10]))
      = some (py_strip ssid, py_strip password) := by
  have hs : ssid ++ [10] ++ password ++ [10] = ssid ++ 10 :: (password ++ 10 :: []) := by
    simp
  rw [load_wifi_config, hs]
  rw [py_readlines]
  rw [split_nl_append _ _ h1, split_nl_append _ _ h2]
  rfl

/-- Claim C4: dispatching any RPC other than SEND_WIFI_SETTINGS from state
AUTHORIZED neither ends in state PROVISIONING nor ever sets it (every state
change goes through send_state, which also emits the matching CURRENT_STATE
packet, so absence from the emitted packets excludes a transient visit);
and the three request commands leave the protocol state unchanged from any
state. -/
theorem rpc_state_machine_safety (env : Env) (cmd : Nat) (data : List Nat)
    (st : EngineState) :
    (st.current_state = STATE_AUTHORIZED → cmd ≠ RPC_SEND_WIFI_SETTINGS →
      (handle_rpc_command env cmd data st).1.current_state ≠ STATE_PROVISIONING ∧
      (TYPE_CURRENT_STATE, ([STATE_PROVISIONING] : List Nat))
        ∉ (handle_rpc_command env cmd data st).2.1) ∧
    ((cmd = RPC_REQUEST_CURRENT_STATE ∨ cmd = RPC_REQUEST_DEVICE_INFO ∨
        cmd = RPC_REQUEST_SCAN_NETWORKS) →
      (handle_rpc_command env cmd data st).1.current_state = st.current_state) := by
  constructor
  · intro hst hcmd
    simp only [handle_rpc_command, send_error, send_state, send_rpc_result, if_neg hcmd]
    by_cases h2 : cmd = RPC_REQUEST_CURRENT_STATE
    · rw [if_pos h2]
      refine ⟨?_, ?_⟩
      · simp [hst, STATE_AUTHORIZED, STATE_PROVISIONING]
      · simp [hst, TYPE_ERROR_STATE, TYPE_CURRENT_STATE, STATE_PROVISIONING,
          STATE_AUTHORIZED]
    · rw [if_neg h2]
      by_cases h3 : cmd = RPC_REQUEST_DEVICE_INFO
      · rw [if_pos h3]
        refine ⟨?_, ?_⟩
        · simp [hst, STATE_AUTHORIZED, STATE_PROVISIONING]
        · simp [TYPE_ERROR_STATE, TYPE_CURRENT_STATE, TYPE_RPC_RESULT]
      · rw [if_neg h3]
        by_cases h4 : cmd = RPC_REQUEST_SCAN_NETWORKS
        · rw [if_pos h4]
          refine ⟨?_, ?_⟩
          · simp [hst, STATE_AUTHORIZED, STATE_PROVISIONING]
          · simp [TYPE_ERROR_STATE, TYPE_CURRENT_STATE, TYPE_RPC_RESULT]
        · rw [if_neg h4]
          refine ⟨?_, ?_⟩
          · simp [hst, STATE_AUTHORIZED, STATE_PROVISIONING]
          · simp [TYPE_ERROR_STATE, TYPE_CURRENT_STATE]
  · intro hcmd
    have h1 : cmd ≠ RPC_SEND_WIFI_SETTINGS := by
      rcases hcmd with h | h | h <;> simp [h, RPC_REQUEST_CURRENT_STATE,
        RPC_REQUEST_DEVICE_INFO, RPC_REQUEST_SCAN_NETWORKS, RPC_SEND_WIFI_SETTINGS]
    simp only [handle_rpc_command, send_error, send_state, send_rpc_result, if_neg h1]
    rcases hcmd with h | h | h
    · rw [if_pos h]
    · rw [if_neg (by simp [h, RPC_REQUEST_DEVICE_INFO, RPC_REQUEST_CURRENT_STATE]),
        if_pos h]
    · rw [if_neg (by simp [h, RPC_REQUEST_SCAN_NETWORKS, RPC_REQUEST_CURRENT_STATE]),
        if_neg (by simp [h, RPC_REQUEST_SCAN_NETWORKS, RPC_REQUEST_DEVICE_INFO]),
        if_pos h]

/-- Witness for C4: from AUTHORIZED, REQUEST_DEVICE_INFO neither reaches
PROVISIONING nor changes the state. -/
theorem rpc_state_machine_safety_witness :
    ((handle_rpc_command env_down RPC_REQUEST_DEVICE_INFO [] st_auth).1.current_state
        ≠ STATE_PROVISIONING ∧
      (TYPE_CURRENT_STATE, ([STATE_PROVISIONING] : List Nat))
        ∉ (handle_rpc_command env_down RPC_REQUEST_DEVICE_INFO [] st_auth).2.1) ∧
    (handle_rpc_command env_down RPC_REQUEST_DEVICE_INFO [] st_auth).1.current_state
      = st_auth.current_state :=
  ⟨(rpc_state_machine_safety env_down RPC_REQUEST_DEVICE_INFO [] st_auth).1
      (by decide) (by decide),
    (rpc_state_machine_safety env_down RPC_REQUEST_DEVICE_INFO [] st_auth).2
      (by decide)⟩

/-- Claim C5 as amended: a SEND_WIFI_SETTINGS RPC whose payload parses to at
least two strings and whose connect attempt succeeds within the bounded wait
emits, after the dispatch-time ERROR_STATE(NONE), exactly
CURRENT_STATE(PROVISIONING), CURRENT_STATE(PROVISIONED) and one RPC_RESULT
carrying the single redirect URL, ends in state PROVISIONED, and persists
the credential file with content ssid, newline, password, newline - all of
this unconditionally; and when additionally neither credential contains a
newline byte and neither carries leading or trailing whitespace, a
subsequent load_wifi_config returns exactly the submitted pair
(load_wifi_config strips each stored line, so whitespace at the ends of a
credential does not survive the round trip: see the counterexample). -/
theorem send_wifi_settings_success (env : Env) (data ssid password : List Nat)
    (others : List (List Nat)) (st : EngineState)
    (hparse : parse_strings data = ssid :: password :: others)
    (hconn : wait_for_connection env.isconnected 20 0 = true) :
    (handle_rpc_command env RPC_SEND_WIFI_SETTINGS data st).2.1 =
      [(TYPE_ERROR_STATE, [ERROR_NONE]),
       (TYPE_CURRENT_STATE, [STATE_PROVISIONING]),
       (TYPE_CURRENT_STATE, [STATE_PROVISIONED]),
       (TYPE_RPC_RESULT, encode_strings [HTTP_URL_PREFIX ++ env.ip ++ [47]])] ∧
    (handle_rpc_command env RPC_SEND_WIFI_SETTINGS data st).1.current_state
      = STATE_PROVISIONED ∧
    (handle_rpc_command env RPC_SEND_WIFI_SETTINGS data st).1.wifi_config
      = some (ssid ++ [10] ++ password ++ [10]) ∧
    (py_strip ssid = ssid → py_strip password = password →
      10 ∉ ssid → 10 ∉ password →
      load_wifi_config (handle_rpc_command env RPC_SEND_WIFI_SETTINGS data st).1.wifi_config
        = some (ssid, password)) := by
  refine ⟨?_, ?_, ?_, ?_⟩
  · simp only [handle_rpc_command, if_pos rfl, hparse]
    simp [connect_wifi, hconn, send_state, send_error, send_rpc_result]
  · simp only [handle_rpc_command, if_pos rfl, hparse]
    simp [connect_wifi, hconn, send_state, send_error, send_rpc_result]
  · simp only [handle_rpc_command, if_pos rfl, hparse]
    simp [connect_wifi, hconn, send_state, send_error, send_rpc_result]
  · intro hs1 hs2 hn1 hn2
    simp only [handle_rpc_command, if_pos rfl, hparse]
    simp only [connect_wifi, hconn, if_pos, send_state, send_error, send_rpc_result]
    rw [load_wifi_config_write ssid password hn1 hn2, hs1, hs2]

/-- Witness for the amended C5 at the scenario credentials HomeNet and
secret123 against an environment whose connect succeeds immediately. -/
theorem send_wifi_settings_success_witness :
    (handle_rpc_command env_up RPC_SEND_WIFI_SETTINGS
        (encode_strings [[72, 111, 109, 101, 78, 101, 116],
          [115, 101, 99, 114, 101, 116, 49, 50, 51]]) st_auth).2.1 =
      [(TYPE_ERROR_STATE, [ERROR_NONE]),
       (TYPE_CURRENT_STATE, [STATE_PROVISIONING]),
       (TYPE_CURRENT_STATE, [STATE_PROVISIONED]),
       (TYPE_RPC_RESULT, encode_strings [HTTP_URL_PREFIX ++ env_up.ip ++ [47]])] ∧
    (handle_rpc_command env_up RPC_SEND_WIFI_SETTINGS
        (encode_strings [[72, 111, 109, 101, 78, 101, 116],
          [115, 101, 99, 114, 101, 116, 49, 50, 51]]) st_auth).1.current_state
      = STATE_PROVISIONED ∧
    (handle_rpc_command env_up RPC_SEND_WIFI_SETTINGS
        (encode_strings [[72, 111, 109, 101, 78, 101, 116],
          [115, 101, 99, 114, 101, 116, 49, 50, 51]]) st_auth).1.wifi_config
      = some ([72, 111, 109, 101, 78, 101, 116] ++ [10]
          ++ [115, 101, 99, 114, 101, 116, 49, 50, 51] ++ [10]) ∧
    load_wifi_config (handle_rpc_command env_up RPC_SEND_WIFI_SETTINGS
        (encode_strings [[72, 111, 109, 101, 78, 101, 116],
          [115, 101, 99, 114, 101, 116, 49, 50, 51]]) st_auth).1.wifi_config
      = some ([72, 111, 109, 101, 78, 101, 116],
          [115, 101, 99, 114, 101, 116, 49, 50, 51]) := by
  have h := send_wifi_settings_success env_up
    (encode_strings [[72, 111, 109, 101, 78, 101, 116],
      [115, 101, 99, 114, 101, 116, 49, 50, 51]])
    [72, 111, 109, 101, 78, 101, 116] [115, 101, 99, 114, 101, 116, 49, 50, 51]
    [] st_auth (by decide) (by decide)
  have h4 := h.2.2.2 (by decide) (by decide) (by decide) (by decide)
  exact And.intro h.1 (And.intro h.2.1 (And.intro h.2.2.1 h4))

/-- Counterexample to C5 as stated: an ssid with a leading space (byte 32)
satisfies every premise of the claim, the connect succeeds, yet the
subsequent load does not return the submitted pair, because
load_wifi_config strips the stored line. -/
theorem send_wifi_settings_load_counterexample :
    load_wifi_config (handle_rpc_command env_up RPC_SEND_WIFI_SETTINGS
        (encode_strings [[32, 97], [98]]) st_auth).1.wifi_config
      ≠ some ([32, 97], [98]) := by decide

/-- Claim C6: a SEND_WIFI_SETTINGS RPC whose connect attempt fails within
the bounded wait emits, after the dispatch-time ERROR_STATE(NONE) and the
CURRENT_STATE(PROVISIONING) marking the attempt,
ERROR_STATE(UNABLE_TO_CONNECT) and then CURRENT_STATE(AUTHORIZED); the
final state is AUTHORIZED and the credential file is untouched, so
is_wifi_configured is unchanged. -/
theorem send_wifi_settings_failure (env : Env) (data ssid password : List Nat)
    (others : List (List Nat)) (st : EngineState)
    (hparse : parse_strings data = ssid :: password :: others)
    (hconn : wait_for_connection env.isconnected 20 0 = false) :
    (handle_rpc_command env RPC_SEND_WIFI_SETTINGS data st).2.1 =
      [(TYPE_ERROR_STATE, [ERROR_NONE]),
       (TYPE_CURRENT_STATE, [STATE_PROVISIONING]),
       (TYPE_ERROR_STATE, [ERROR_UNABLE_TO_CONNECT]),
       (TYPE_CURRENT_STATE, [STATE_AUTHORIZED])] ∧
    (handle_rpc_command env RPC_SEND_WIFI_SETTINGS data st).1.current_state
      = STATE_AUTHORIZED ∧
    (handle_rpc_command env RPC_SEND_WIFI_SETTINGS data st).1.wifi_config
      = st.wifi_config ∧
    is_wifi_configured (handle_rpc_command env RPC_SEND_WIFI_SETTINGS data st).1.wifi_config
      = is_wifi_configured st.wifi_config := by
  refine ⟨?_, ?_, ?_, ?_⟩ <;>
    · simp only [handle_rpc_command, if_pos rfl, hparse]
      simp [connect_wifi, hconn, send_state, send_error, send_rpc_result]

/-- Witness for C6 with an environment whose connect never succeeds. -/
theorem send_wifi_settings_failure_witness :
    (handle_rpc_command env_down RPC_SEND_WIFI_SETTINGS
        (encode_strings [[72, 111, 109, 101, 78, 101, 116], [98]]) st_auth).2.1 =
      [(TYPE_ERROR_STATE, [ERROR_NONE]),
       (TYPE_CURRENT_STATE, [STATE_PROVISIONING]),
       (TYPE_ERROR_STATE, [ERROR_UNABLE_TO_CONNECT]),
       (TYPE_CURRENT_STATE, [STATE_AUTHORIZED])] ∧
    (handle_rpc_command env_down RPC_SEND_WIFI_SETTINGS
        (encode_strings [[72, 111, 109, 101, 78, 101, 116], [98]]) st_auth).1.current_state
      = STATE_AUTHORIZED ∧
    (handle_rpc_command env_down RPC_SEND_WIFI_SETTINGS
        (encode_strings [[72, 111, 109, 101, 78, 101, 116], [98]]) st_auth).1.wifi_config
      = st_auth.wifi_config ∧
    is_wifi_configured (handle_rpc_command env_down RPC_SEND_WIFI_SETTINGS
        (encode_strings [[72, 111, 109, 101, 78, 101, 116], [98]]) st_auth).1.wifi_config
      = is_wifi_configured st_auth.wifi_config :=
  send_wifi_settings_failure env_down
    (encode_strings [[72, 111, 109, 101, 78, 101, 116], [98]])
    [72, 111, 109, 101, 78, 101, 116] [98] [] st_auth (by decide) (by decide)

/-- Witness for C3 at the scenario query of the design document: transaction
id 0x12 0x34, one question for example.com, type A, class IN. -/
theorem build_dns_response_spec_witness :
    (build_dns_response ([0x12, 0x34, 0x01, 0x00, 0x00, 0x01, 0x00, 0x00, 0x00, 0x00,
        0x00, 0x00, 7, 101, 120, 97, 109, 112, 108, 101, 3, 99, 111, 109, 0,
        0x00, 0x01, 0x00, 0x01])).take 2 =
      ([0x12, 0x34, 0x01, 0x00, 0x00, 0x01, 0x00, 0x00, 0x00, 0x00,
        0x00, 0x00, 7, 101, 120, 97, 109, 112, 108, 101, 3, 99, 111, 109, 0,
        0x00, 0x01, 0x00, 0x01] : List Nat).take 2 ∧
    (build_dns_response ([0x12, 0x34, 0x01, 0x00, 0x00, 0x01, 0x00, 0x00, 0x00, 0x00,
        0x00, 0x00, 7, 101, 120, 97, 109, 112, 108, 101, 3, 99, 111, 109, 0,
        0x00, 0x01, 0x00, 0x01] : List Nat)).drop 29 =
      [0xc0, 0x0c, 0x00, 0x01, 0x00, 0x01, 0x00, 0x00, 0x00, 0x3c, 0x00, 0x04]
        ++ AP_IP_BYTES := by
  refine ⟨(build_dns_response_spec _ (by decide)).1, ?_⟩
  have h := (build_dns_response_spec ([0x12, 0x34, 0x01, 0x00, 0x00, 0x01, 0x00, 0x00,
    0x00, 0x00, 0x00, 0x00, 7, 101, 120, 97, 109, 112, 108, 101, 3, 99, 111, 109, 0,
    0x00, 0x01, 0x00, 0x01] : List Nat) (by decide)).2.2.2.2.2
  simpa using h

/-- Claim C9, evaluated at the failing input: POST /api/configure with the
non-empty ssid HomeNet and password pw returns status 200 with success true
and saves the submitted pair, but triggers no WiFi connect attempt: the
connect counter stays at zero, although both the claim and the handler
docstring (Save WiFi credentials and connect) promise a connect attempt. -/
theorem handle_configure_no_connect_attempt :
    (handle_configure { ssid := some [72, 111, 109, 101, 78, 101, 116], password := [112, 119] }
        { creds := none, connect_calls := 0 }).1.status = 200 ∧
    (handle_configure { ssid := some [72, 111, 109, 101, 78, 101, 116], password := [112, 119] }
        { creds := none, connect_calls := 0 }).1.success = true ∧
    (handle_configure { ssid := some [72, 111, 109, 101, 78, 101, 116], password := [112, 119] }
        { creds := none, connect_calls := 0 }).2.creds
      = some ([72, 111, 109, 101, 78, 101, 116], [112, 119]) ∧
    (handle_configure { ssid := some [72, 111, 109, 101, 78, 101, 116], password := [112, 119] }
        { creds := none, connect_calls := 0 }).2.connect_calls = 0 := by
  refine ⟨rfl, rfl, rfl, rfl⟩

end PyDirect
